import Mathlib

/- Shallow embedding of the pidfile crate (src/lib.rs).

   The crate's platform backend (file_posix.rs / ffi_linux.rs / ffi_darwin.rs,
   referenced by `mod file` / `mod ffi` in lib.rs) is not part of the visible
   source tree.  Its operations — open-or-create, non-blocking exclusive lock
   attempt, truncate, write-pid, read-and-parse, release-on-close — are
   modelled from the spec: their *outcomes* are injected through environment
   records (`LockEnv`, `CheckEnv`) while their filesystem *effects* act on a
   model filesystem (`FsState`).  The control flow of `Request::lock`,
   `Request::check`, `at`, `Lock::pidfile` and `Drop for Lock` is translated
   directly from lib.rs. -/

/-- Error kinds of old-Rust `std::io::IoError`; lib.rs only matches
    `FileNotFound`, every other kind falls into the wildcard arm. -/
inductive IoErrorKind where
  | FileNotFound
  | PermissionDenied
  | OtherIoError
  deriving DecidableEq, Repr

/-- Model of `std::io::IoError`: only the `kind` field is inspected by lib.rs. -/
structure IoError where
  kind : IoErrorKind
  deriving DecidableEq, Repr

/-- Model filesystem: a map from paths to file contents (a byte list), `none`
    meaning the file does not exist. -/
def FsState : Type := String → Option (List Nat)

/-- Overwrite (or create) the file at `p` with contents `c`. -/
def setFile (fs : FsState) (p : String) (c : List Nat) : FsState :=
  fun q => if q = p then some c else fs q

/-- Effect of `File::open(path, true, true, perm)` succeeding: the file is
    created empty when absent, existing contents are preserved (the open is
    read+write, non-truncating). -/
def createIfAbsent (fs : FsState) (p : String) : FsState :=
  fun q => if q = p then some ((fs p).getD []) else fs q

/-- Modelled from the spec: the pid encoding written by the backend's
    `write` (file_posix.rs, absent from the tree).  The spec fixes only that
    it is a deterministic encoding that the parse path inverts exactly; we
    model it as the base-10 digit string of the pid. -/
def encodePid (p : Int) : List Nat :=
  Nat.digits 10 p.toNat

/-- Modelled from the spec: the parse performed by the backend's `check`
    (file_posix.rs, absent from the tree).  Empty or unparseable content
    yields 0, which lib.rs treats as "no live lock". -/
def parsePid (b : List Nat) : Nat :=
  if b.all (fun d => d < 10) then Nat.ofDigits 10 b else 0

/-- Rust `pid as uint`: cast of a (possibly signed) integer to a 64-bit
    unsigned machine word. -/
def uintCast (i : Int) : Nat :=
  (i % (2 : Int) ^ 64).toNat

/-- Model of old-Rust `std::io::FilePermission` (a bitflags over 0o777). -/
structure FilePermission where
  bits : Nat
  deriving DecidableEq, Repr

/-- `FilePermission::from_bits`: `Some` exactly when no unknown bit is set. -/
def FilePermission.from_bits (b : Nat) : Option FilePermission :=
  if b &&& 0o777 = b then some ⟨b⟩ else none

/-- `Request { pid, path, perm }` from lib.rs. -/
structure Request where
  pid : Int
  path : String
  perm : FilePermission

/-- `at(path)` from lib.rs.  The current process identifier, obtained there
    by the ambient `pid()` (an external OS call), is passed explicitly as
    `curPid`.  The `.expect(..)` on `from_bits` is modelled by `getD`; the
    theorem for the construction shows the `none` arm is unreachable. -/
def atPath (path : String) (curPid : Int) : Request :=
  { pid := curPid
    path := path
    perm := (FilePermission.from_bits 0o644).getD ⟨0⟩ }

/-- `Pidfile { pid: uint }` from lib.rs; `Pidfile.pid` is the projection,
    matching the `pid()` accessor. -/
structure Pidfile where
  pid : Nat
  deriving DecidableEq, Repr

/-- Model of the backend `File` handle: an owned descriptor on `path`. -/
structure File where
  path : String

/-- `Lock { pidfile, path, handle }` from lib.rs. -/
structure Lock where
  pidfile : Pidfile
  path : String
  handle : File

/-- `Lock::pidfile(&self)` from lib.rs: returns a copy of the stored
    `Pidfile` snapshot. -/
def Lock.getPidfile (l : Lock) : Pidfile :=
  l.pidfile

/-- `LockError { conflict: bool, io: Option<IoError> }` from lib.rs. -/
structure LockError where
  conflict : Bool
  io : Option IoError
  deriving DecidableEq, Repr

/-- `LockError::conflict()` from lib.rs. -/
def LockError.conflictErr : LockError :=
  { conflict := true, io := none }

/-- `LockError::io_error(err)` from lib.rs. -/
def LockError.io_error (err : IoError) : LockError :=
  { conflict := false, io := some err }

/-- Observable steps of a `lock()` / `drop()` execution, in program order. -/
inductive Event where
  | openAttempt
  | lockAttempt
  | lockConfirmed
  | truncateStep
  | writeStep
  | unlinkStep
  | releaseLock
  deriving DecidableEq, Repr

/-- Injected outcomes of the four backend calls made by `Request::lock`
    (their implementations live in the absent file_posix.rs; the spec fixes
    only their success/failure interface).  `lockRes = .ok false` is the
    "attempt succeeded but the lock was not acquired" (contention) outcome. -/
structure LockEnv where
  openRes : Except IoError Unit
  lockRes : Except IoError Bool
  truncRes : Except IoError Unit
  writeRes : Except IoError Unit

/-- `Request::lock(self)` from lib.rs, with backend outcomes injected from
    `env` and backend effects applied to the model filesystem `fs`.  Returns
    the result, the final filesystem, and the trace of performed steps. -/
def Request.lockRun (req : Request) (env : LockEnv) (fs : FsState) :
    Except LockError Lock × FsState × List Event :=
  match env.openRes with
  | .error e => (.error (LockError.io_error e), fs, [.openAttempt])
  | .ok _ =>
    let fs1 := createIfAbsent fs req.path
    match env.lockRes with
    | .error e => (.error (LockError.io_error e), fs1, [.openAttempt, .lockAttempt])
    | .ok false => (.error LockError.conflictErr, fs1, [.openAttempt, .lockAttempt])
    | .ok true =>
      match env.truncRes with
      | .error e =>
        (.error (LockError.io_error e), fs1,
          [.openAttempt, .lockAttempt, .lockConfirmed, .truncateStep])
      | .ok _ =>
        let fs2 := setFile fs1 req.path []
        match env.writeRes with
        | .error e =>
          (.error (LockError.io_error e), fs2,
            [.openAttempt, .lockAttempt, .lockConfirmed, .truncateStep, .writeStep])
        | .ok _ =>
          let fs3 := setFile fs2 req.path (encodePid req.pid)
          (.ok { pidfile := { pid := uintCast req.pid }
                 path := req.path
                 handle := { path := req.path } },
            fs3,
            [.openAttempt, .lockAttempt, .lockConfirmed, .truncateStep, .writeStep])

/-- Injected outcomes of the two backend calls made by `Request::check`:
    the read-only, non-creating open, and `f.check()` (read contents and
    parse a pid, 0 for empty/unparseable — modelled from the spec). -/
structure CheckEnv where
  openRes : Except IoError Unit
  checkRes : Except IoError Nat

/-- `Request::check(self)` from lib.rs with backend outcomes injected:
    a `FileNotFound` open failure is folded into `Ok(None)`, any other open
    failure propagates, a parsed pid of 0 yields `Ok(None)`, and a non-zero
    parsed pid yields `Ok(Some(Pidfile))`. -/
def Request.checkRun (req : Request) (env : CheckEnv) :
    Except IoError (Option Pidfile) :=
  match env.openRes with
  | .error e =>
    match e.kind with
    | .FileNotFound => .ok none
    | _ => .error e
  | .ok _ =>
    match env.checkRes with
    | .error e => .error e
    | .ok pid => if pid = 0 then .ok none else .ok (some { pid := pid })

/-- `Request::check(self)` from lib.rs run against the model filesystem:
    an absent file is the `FileNotFound` arm (→ `Ok(None)`); a present file
    is read and parsed by the backend `check` (modelled by `parsePid`). -/
def Request.checkFs (req : Request) (fs : FsState) :
    Except IoError (Option Pidfile) :=
  match fs req.path with
  | none => .ok none
  | some contents =>
    let pid := parsePid contents
    if pid = 0 then .ok none else .ok (some { pid := pid })

/-- `Drop for Lock` from lib.rs plus the implicit field drop: the body calls
    `fs::unlink(&self.path)` discarding the result, then the `handle` field
    is dropped, closing the descriptor and releasing the advisory lock
    (release-on-close is modelled from the spec; the backend is absent).
    `unlinkRes` injects the outcome of the unlink attempt. -/
def Lock.dropRun (l : Lock) (unlinkRes : Except IoError Unit) (fs : FsState) :
    FsState × List Event :=
  let fs' : FsState :=
    match unlinkRes with
    | .ok _ => fun q => if q = l.path then none else fs q
    | .error _ => fs
  (fs', [Event.unlinkStep, Event.releaseLock])

/-- The empty model filesystem. -/
def fsEmpty : FsState := fun _ => none

/-- A sample request (pid 4242 at /tmp/test.pid), as in the spec scenario. -/
def reqEx : Request :=
  { pid := 4242, path := "/tmp/test.pid", perm := { bits := 0o644 } }

/-- A sample request by another logical caller (pid 9999) at the same path. -/
def reqEx2 : Request :=
  { pid := 9999, path := "/tmp/test.pid", perm := { bits := 0o644 } }

/-- A sample non-FileNotFound I/O error. -/
def ioEx : IoError := { kind := IoErrorKind.PermissionDenied }

/-- Backend outcomes: every call succeeds and the lock is acquired. -/
def envAllOk : LockEnv :=
  { openRes := .ok (), lockRes := .ok true, truncRes := .ok (), writeRes := .ok () }

/-- Backend outcomes: the open itself fails. -/
def envOpenFail : LockEnv :=
  { openRes := .error ioEx, lockRes := .ok true, truncRes := .ok (), writeRes := .ok () }

/-- Backend outcomes: the lock attempt succeeds but reports "not acquired". -/
def envConflict : LockEnv :=
  { openRes := .ok (), lockRes := .ok false, truncRes := .ok (), writeRes := .ok () }

/-- Backend outcomes: lock acquired, truncate succeeds, write fails. -/
def envWriteFail : LockEnv :=
  { openRes := .ok (), lockRes := .ok true, truncRes := .ok (), writeRes := .error ioEx }

/-- The Lock value produced by `reqEx.lockRun envAllOk fsEmpty`. -/
def lockEx : Lock :=
  { pidfile := { pid := 4242 }
    path := "/tmp/test.pid"
    handle := { path := "/tmp/test.pid" } }

/-- The model filesystem after that successful lock. -/
def fsAfterLock : FsState :=
  setFile (setFile (createIfAbsent fsEmpty reqEx.path) reqEx.path [])
    reqEx.path (encodePid reqEx.pid)

/-- A model filesystem holding the digit string of pid 4242 at the sample
    path (digits are little-endian, as produced by `Nat.digits`). -/
def fsWithPid : FsState :=
  fun q => if q = "/tmp/test.pid" then some [2, 4, 2, 4] else none

/-- C1: lock() yields the contention error (conflict = true, io = None)
    exactly when the open succeeded and the non-blocking lock attempt
    succeeded but reported "not acquired"; every failure of open, lock
    attempt, truncate or write instead yields conflict = false with the
    underlying error in io. -/
theorem lock_error_classification (req : Request) (env : LockEnv) (fs : FsState) :
    ((req.lockRun env fs).1 = .error { conflict := true, io := none } ↔
      env.openRes = .ok () ∧ env.lockRes = .ok false) ∧
    (∀ e : IoError, env.openRes = .error e →
      (req.lockRun env fs).1 = .error { conflict := false, io := some e }) ∧
    (∀ e : IoError, env.openRes = .ok () → env.lockRes = .error e →
      (req.lockRun env fs).1 = .error { conflict := false, io := some e }) ∧
    (∀ e : IoError, env.openRes = .ok () → env.lockRes = .ok true →
      env.truncRes = .error e →
      (req.lockRun env fs).1 = .error { conflict := false, io := some e }) ∧
    (∀ e : IoError, env.openRes = .ok () → env.lockRes = .ok true →
      env.truncRes = .ok () → env.writeRes = .error e →
      (req.lockRun env fs).1 = .error { conflict := false, io := some e }) := by
  obtain ⟨o, lk, t, w⟩ := env
  rcases o with eo | ⟨⟩
  · simp [Request.lockRun, LockError.io_error]
  · rcases lk with el | b
    · simp [Request.lockRun, LockError.io_error]
    · cases b
      · simp [Request.lockRun, LockError.conflictErr]
      · rcases t with et | ⟨⟩
        · simp [Request.lockRun, LockError.io_error]
        · rcases w with ew | ⟨⟩
          · simp [Request.lockRun, LockError.io_error]
          · simp [Request.lockRun, LockError.io_error]

/-- Witness for C1: on an open failure the result is the I/O-shaped error. -/
theorem lock_error_classification_witness :
    (reqEx.lockRun envOpenFail fsEmpty).1 =
      .error { conflict := false, io := some ioEx } :=
  (lock_error_classification reqEx envOpenFail fsEmpty).2.1 ioEx rfl

/-- C6: every LockError produced by lock() has exactly one of the two
    shapes — conflict with no I/O error, or no conflict with an I/O error —
    never both fields unset and never both set. -/
theorem lock_error_shape (req : Request) (env : LockEnv) (fs : FsState)
    (err : LockError) (h : (req.lockRun env fs).1 = .error err) :
    ((err.conflict = true ∧ err.io = none) ∨
      (err.conflict = false ∧ ∃ e, err.io = some e)) ∧
    ¬(err.conflict = false ∧ err.io = none) ∧
    ¬(err.conflict = true ∧ ∃ e, err.io = some e) := by
  obtain ⟨o, lk, t, w⟩ := env
  rcases o with eo | ⟨⟩
  · simp [Request.lockRun, LockError.io_error] at h
    simp [← h]
  · rcases lk with el | b
    · simp [Request.lockRun, LockError.io_error] at h
      simp [← h]
    · cases b
      · simp [Request.lockRun, LockError.conflictErr] at h
        simp [← h]
      · rcases t with et | ⟨⟩
        · simp [Request.lockRun, LockError.io_error] at h
          simp [← h]
        · rcases w with ew | ⟨⟩
          · simp [Request.lockRun, LockError.io_error] at h
            simp [← h]
          · simp [Request.lockRun] at h

/-- Witness for C6: the contention error from a contended run has the
    conflict shape. -/
theorem lock_error_shape_witness :
    ((LockError.conflictErr.conflict = true ∧ LockError.conflictErr.io = none) ∨
      (LockError.conflictErr.conflict = false ∧
        ∃ e, LockError.conflictErr.io = some e)) ∧
    ¬(LockError.conflictErr.conflict = false ∧ LockError.conflictErr.io = none) ∧
    ¬(LockError.conflictErr.conflict = true ∧
        ∃ e, LockError.conflictErr.io = some e) :=
  lock_error_shape reqEx envConflict fsEmpty LockError.conflictErr rfl

/-- C7: every successful lock() returns a Lock whose Pidfile snapshot is the
    consumed Request's pid (cast to uint), `Lock::pidfile()` returns exactly
    that snapshot, and repeated calls return the same value. -/
theorem lock_success_pidfile (req : Request) (env : LockEnv) (fs : FsState)
    (l : Lock) (h : (req.lockRun env fs).1 = .ok l) :
    l.getPidfile = { pid := uintCast req.pid } ∧
    (l.getPidfile).pid = uintCast req.pid ∧
    ∀ p₁ p₂ : Pidfile, p₁ = l.getPidfile → p₂ = l.getPidfile → p₁ = p₂ := by
  obtain ⟨o, lk, t, w⟩ := env
  rcases o with eo | ⟨⟩
  · simp [Request.lockRun] at h
  · rcases lk with el | b
    · simp [Request.lockRun] at h
    · cases b
      · simp [Request.lockRun] at h
      · rcases t with et | ⟨⟩
        · simp [Request.lockRun] at h
        · rcases w with ew | ⟨⟩
          · simp [Request.lockRun] at h
          · simp [Request.lockRun] at h
            refine ⟨?_, ?_, ?_⟩
            · simp [← h, Lock.getPidfile]
            · simp [← h, Lock.getPidfile]
            · intro p₁ p₂ h₁ h₂
              rw [h₁, h₂]

/-- Witness for C7: the sample successful run yields pid 4242. -/
theorem lock_success_pidfile_witness :
    lockEx.getPidfile = { pid := uintCast reqEx.pid } ∧
    (lockEx.getPidfile).pid = uintCast reqEx.pid ∧
    ∀ p₁ p₂ : Pidfile, p₁ = lockEx.getPidfile → p₂ = lockEx.getPidfile →
      p₁ = p₂ :=
  lock_success_pidfile reqEx envAllOk fsEmpty lockEx rfl

/-- C10: once the lock is held, a truncate or write failure produces the
    I/O-shaped error (never a conflict), no Lock is returned, and on the
    write-failure path the file stays truncated to empty — the previous
    contents are not restored. -/
theorem lock_write_failure_no_rollback (req : Request) (env : LockEnv)
    (fs : FsState) (e : IoError)
    (ho : env.openRes = .ok ()) (hl : env.lockRes = .ok true) :
    (env.truncRes = .error e →
      (req.lockRun env fs).1 = .error { conflict := false, io := some e } ∧
      ∀ l : Lock, (req.lockRun env fs).1 ≠ .ok l) ∧
    (env.truncRes = .ok () → env.writeRes = .error e →
      (req.lockRun env fs).1 = .error { conflict := false, io := some e } ∧
      (∀ l : Lock, (req.lockRun env fs).1 ≠ .ok l) ∧
      (req.lockRun env fs).2.1 req.path = some []) := by
  obtain ⟨o, lk, t, w⟩ := env
  rcases o with eo | ⟨⟩
  · simp at ho
  · rcases lk with el | b
    · simp at hl
    · cases b
      · simp at hl
      · rcases t with et | ⟨⟩
        · constructor
          · intro ht
            simp at ht
            subst ht
            constructor
            · simp [Request.lockRun, LockError.io_error]
            · intro l
              simp [Request.lockRun]
          · intro ht
            simp at ht
        · constructor
          · intro ht
            simp at ht
          · intro _ hw
            rcases w with ew | ⟨⟩
            · simp at hw
              subst hw
              refine ⟨?_, ?_, ?_⟩
              · simp [Request.lockRun, LockError.io_error]
              · intro l
                simp [Request.lockRun]
              · simp [Request.lockRun, setFile]
            · simp at hw

/-- Witness for C10: with lock held and write failing, the sample run
    returns the I/O error and leaves the file truncated. -/
theorem lock_write_failure_no_rollback_witness :
    (reqEx.lockRun envWriteFail fsEmpty).1 =
      .error { conflict := false, io := some ioEx } ∧
    (∀ l : Lock, (reqEx.lockRun envWriteFail fsEmpty).1 ≠ .ok l) ∧
    (reqEx.lockRun envWriteFail fsEmpty).2.1 reqEx.path = some [] :=
  (lock_write_failure_no_rollback reqEx envWriteFail fsEmpty ioEx rfl rfl).2
    rfl rfl

/-- C2: truncate and write are performed only on runs where the open
    succeeded and the non-blocking lock attempt confirmed the lock (and then
    the confirmation is in the trace); moreover every prefix of the trace
    containing a truncate or write step already contains the confirmation,
    i.e. both steps occur strictly after it. -/
theorem lock_truncate_write_after_confirm (req : Request) (env : LockEnv)
    (fs : FsState) :
    ((Event.truncateStep ∈ (req.lockRun env fs).2.2 ∨
        Event.writeStep ∈ (req.lockRun env fs).2.2) →
      env.openRes = .ok () ∧ env.lockRes = .ok true ∧
      Event.lockConfirmed ∈ (req.lockRun env fs).2.2) ∧
    ∀ n : Nat,
      (Event.truncateStep ∈ ((req.lockRun env fs).2.2).take n ∨
        Event.writeStep ∈ ((req.lockRun env fs).2.2).take n) →
      Event.lockConfirmed ∈ ((req.lockRun env fs).2.2).take n := by
  obtain ⟨o, lk, t, w⟩ := env
  rcases o with eo | ⟨⟩
  · refine ⟨by simp [Request.lockRun], ?_⟩
    intro n hn
    obtain _ | n := n <;> simp_all [Request.lockRun, List.take]
  · rcases lk with el | b
    · refine ⟨by simp [Request.lockRun], ?_⟩
      intro n hn
      obtain _ | _ | n := n <;> simp_all [Request.lockRun, List.take]
    · cases b
      · refine ⟨by simp [Request.lockRun], ?_⟩
        intro n hn
        obtain _ | _ | n := n <;> simp_all [Request.lockRun, List.take]
      · rcases t with et | ⟨⟩
        · refine ⟨by simp [Request.lockRun], ?_⟩
          intro n hn
          obtain _ | _ | _ | _ | n := n <;>
            simp_all [Request.lockRun, List.take]
        · rcases w with ew | ⟨⟩
          · refine ⟨by simp [Request.lockRun], ?_⟩
            intro n hn
            obtain _ | _ | _ | _ | n := n <;>
              simp_all [Request.lockRun, List.take]
          · refine ⟨by simp [Request.lockRun], ?_⟩
            intro n hn
            obtain _ | _ | _ | _ | n := n <;>
              simp_all [Request.lockRun, List.take]

/-- Witness for C2: in the all-success run the trace contains a truncate
    step, so the theorem yields the confirmed-lock facts. -/
theorem lock_truncate_write_after_confirm_witness :
    envAllOk.openRes = .ok () ∧ envAllOk.lockRes = .ok true ∧
    Event.lockConfirmed ∈ (reqEx.lockRun envAllOk fsEmpty).2.2 :=
  (lock_truncate_write_after_confirm reqEx envAllOk fsEmpty).1
    (Or.inl (by decide))

/-- C4: when the read-only open in check() fails, a FileNotFound failure is
    folded into Ok(None) while every other failure kind propagates as
    Err(e); absence is never an error. -/
theorem check_open_failure (req : Request) (env : CheckEnv) (e : IoError)
    (h : env.openRes = .error e) :
    (e.kind = IoErrorKind.FileNotFound → req.checkRun env = .ok none) ∧
    (e.kind ≠ IoErrorKind.FileNotFound → req.checkRun env = .error e) := by
  obtain ⟨o, c⟩ := env
  rcases o with eo | ⟨⟩
  · simp at h
    subst h
    obtain ⟨k⟩ := eo
    cases k <;> simp [Request.checkRun]
  · simp at h

/-- Witness for C4: a PermissionDenied open failure propagates. -/
theorem check_open_failure_witness :
    reqEx.checkRun { openRes := .error ioEx, checkRes := .ok 0 } =
      .error ioEx :=
  (check_open_failure reqEx { openRes := .error ioEx, checkRes := .ok 0 }
    ioEx rfl).2 (by decide)

/-- C3: for a request whose target file exists (with contents b), check()
    returns Ok(Some(Pidfile)) carrying the parsed pid when the contents
    parse to a non-zero pid, and Ok(None) when they are empty or do not
    parse to a positive pid (parsePid then yields 0). -/
theorem check_existing_file (req : Request) (fs : FsState) (b : List Nat)
    (h : fs req.path = some b) :
    (parsePid b ≠ 0 →
      req.checkFs fs = .ok (some { pid := parsePid b })) ∧
    (parsePid b = 0 → req.checkFs fs = .ok none) := by
  constructor
  · intro hp
    simp [Request.checkFs, h, hp]
  · intro hp
    simp [Request.checkFs, h, hp]

/-- Witness for C3: a file holding the digits of 4242 checks to that pid. -/
theorem check_existing_file_witness :
    reqEx.checkFs fsWithPid = .ok (some { pid := parsePid [2, 4, 2, 4] }) :=
  (check_existing_file reqEx fsWithPid [2, 4, 2, 4] (by decide)).1 (by decide)

/-- The backend parse inverts the backend encoding. -/
theorem parsePid_encodePid (p : Int) : parsePid (encodePid p) = p.toNat := by
  unfold parsePid encodePid
  rw [if_pos]
  · exact Nat.ofDigits_digits 10 p.toNat
  · rw [List.all_eq_true]
    intro d hd
    simpa using Nat.digits_lt_base (by norm_num) hd

/-- C5 (round-trip): after a successful lock() by a Request carrying a
    positive pid N, a check() by a fresh Request at the same path returns
    Ok(Some(pidfile)) with pidfile.pid() = N — the encoding written by
    lock() and the parse performed by check() agree exactly. -/
theorem lock_check_roundtrip (req req2 : Request) (env : LockEnv)
    (fs : FsState) (l : Lock) (fs' : FsState) (tr : List Event)
    (hrun : req.lockRun env fs = (.ok l, fs', tr))
    (hpid : 0 < req.pid) (hpath : req2.path = req.path) :
    req2.checkFs fs' = .ok (some { pid := req.pid.toNat }) := by
  obtain ⟨o, lk, t, w⟩ := env
  rcases o with eo | ⟨⟩
  · simp [Request.lockRun, Prod.ext_iff] at hrun
  · rcases lk with el | b
    · simp [Request.lockRun, Prod.ext_iff] at hrun
    · cases b
      · simp [Request.lockRun, Prod.ext_iff] at hrun
      · rcases t with et | ⟨⟩
        · simp [Request.lockRun, Prod.ext_iff] at hrun
        · rcases w with ew | ⟨⟩
          · simp [Request.lockRun, Prod.ext_iff] at hrun
          · simp [Request.lockRun, Prod.ext_iff] at hrun
            obtain ⟨-, hfs, -⟩ := hrun
            have hc : fs' req2.path = some (encodePid req.pid) := by
              rw [← hfs]
              simp [setFile, hpath]
            simp [Request.checkFs, hc, parsePid_encodePid]
            omega

/-- Witness for C5: pid 4242 written by the sample lock is read back by a
    fresh request (pid 9999) at the same path. -/
theorem lock_check_roundtrip_witness :
    reqEx2.checkFs fsAfterLock = .ok (some { pid := Int.toNat reqEx.pid }) :=
  lock_check_roundtrip reqEx reqEx2 envAllOk fsEmpty lockEx fsAfterLock
    [.openAttempt, .lockAttempt, .lockConfirmed, .truncateStep, .writeStep]
    rfl (by decide) rfl

/-- C8: for every path and current pid, `at()` returns a Request carrying
    exactly the default 0644 permission and that pid, and the validity
    assertion inside (`from_bits(0o644).expect(..)`) is unreachable because
    `from_bits 0o644` is `Some`. -/
theorem atPath_total_default (path : String) (curPid : Int) :
    atPath path curPid =
      { pid := curPid, path := path, perm := { bits := 0o644 } } ∧
    FilePermission.from_bits 0o644 = some { bits := 0o644 } := by
  have h : (0o644 : Nat) &&& 0o777 = 0o644 := by decide
  constructor
  · simp [atPath, FilePermission.from_bits, h]
  · simp [FilePermission.from_bits, h]

/-- C9: on every destruction of a Lock, whatever the outcome of the unlink,
    the trace is the same — one unlink attempt (exactly once) followed by the
    release of the advisory lock — and destruction returns normally (the
    function is total into `FsState × List Event`, with the deletion failure
    swallowed: the trace and control flow do not depend on `unlinkRes`). -/
theorem lock_drop_cleanup (l : Lock) (unlinkRes : Except IoError Unit)
    (fs : FsState) :
    (l.dropRun unlinkRes fs).2 = [Event.unlinkStep, Event.releaseLock] ∧
    (l.dropRun unlinkRes fs).2.count Event.unlinkStep = 1 ∧
    (l.dropRun unlinkRes fs).2.count Event.releaseLock = 1 ∧
    ∀ unlinkRes' : Except IoError Unit,
      (l.dropRun unlinkRes' fs).2 = (l.dropRun unlinkRes fs).2 := by
  refine ⟨rfl, ?_, ?_, fun r => rfl⟩
  · show List.count Event.unlinkStep [Event.unlinkStep, Event.releaseLock] = 1
    decide
  · show List.count Event.releaseLock [Event.unlinkStep, Event.releaseLock] = 1
    decide
